import Mathlib

set_option maxRecDepth 4000

/-!
Verification of the lcd1602 driver (lcd_ctrl.c / lcd_io.c) against its
natural-language specification.

The C driver is shallowly embedded as pure Lean functions.  The mutable
`LCDDev` struct becomes a record threaded through each operation; the
outside world (the i2c bus) is an explicit `Env` record holding the
outcomes of the `open`/`ioctl` system calls and an oracle list of the
bytes successive `read` system calls return.  Every operation returns,
besides its `int` result code, the updated device record, the updated
environment, and a trace of observable bus events.  The trace also
carries two ghost markers (`byteWriteEv`, `latchEv`) recording each entry
into `writeByte` and `latch`; they change no behaviour and only make the
call structure observable in theorems.

The unbounded busy-poll loop in `writeByte` is embedded with fuel
`reads.length + 1`.  This is exact: an iteration of the C loop either
consumes at least one oracle byte, or consumes none, in which case the
device state is provably unchanged and the C loop spins forever; the
model returns `none` (divergence) exactly in that case.
-/

namespace LCD1602

/-- Errno-style result codes used by the driver (EOK is 0). -/
def EOK : Int := 0

/-- EINVAL errno value. -/
def EINVAL : Int := 22

/-- ENXIOCode errno value. -/
def ENXIOCode : Int := 6

/-- ENODEV errno value. -/
def ENODEV : Int := 19

/-- EBADF errno value. -/
def EBADF : Int := 9

/-- Bit-field image of the PCF8574 output register (struct _ctrlReg):
bit 0 = RS (register select), bit 1 = RW, bit 2 = EN (strobe),
bit 3 = LED (backlight), bits 4-7 = D4 (data nibble). -/
structure CtrlReg where
  RS : Nat
  RW : Nat
  EN : Nat
  LED : Nat
  D4 : Nat
  deriving DecidableEq

/-- Storing into the 1-bit RS field truncates to 1 bit. -/
def setRS (r : CtrlReg) (v : Nat) : CtrlReg := {r with RS := v % 2}

/-- Storing into the 1-bit RW field truncates to 1 bit. -/
def setRW (r : CtrlReg) (v : Nat) : CtrlReg := {r with RW := v % 2}

/-- Storing into the 1-bit EN field truncates to 1 bit. -/
def setEN (r : CtrlReg) (v : Nat) : CtrlReg := {r with EN := v % 2}

/-- Storing into the 1-bit LED field truncates to 1 bit. -/
def setLED (r : CtrlReg) (v : Nat) : CtrlReg := {r with LED := v % 2}

/-- Storing into the 4-bit D4 field truncates to 4 bits. -/
def setD4 (r : CtrlReg) (v : Nat) : CtrlReg := {r with D4 := v % 16}

/-- The byte actually pushed on the bus for a register image (the union's
`regval` view of the packed bit-field, little-endian bit allocation). -/
def regval (r : CtrlReg) : Nat :=
  (r.RS % 2) + 2 * (r.RW % 2) + 4 * (r.EN % 2) + 8 * (r.LED % 2) + 16 * (r.D4 % 16)

/-- The device context (struct _LCDDev).  `fd = true` models a cached open
file descriptor (`pDev->fd != -1`); `device = none` models a NULL device
path.  Only non-NULL `pDev` pointers are modelled; every claim quantifies
over non-null devices. -/
structure LCDDev where
  device : Option String
  fd : Bool
  busy : Bool
  exclusive : Bool
  address : Nat
  AddressCounter : Nat
  cx : Int
  cy : Int
  reg : CtrlReg
  deriving DecidableEq

/-- Outside world: whether `open()` and `ioctl(I2C_SLAVE)` succeed, the
errno a failed `open` yields, and the oracle of bytes successive `read`
system calls deliver. -/
structure Env where
  openOk : Bool
  ioctlOk : Bool
  openErrno : Int
  reads : List Nat
  deriving DecidableEq

/-- Observable bus events plus two ghost call markers. -/
inductive Ev where
  | openEv : Ev
  | closeEv : Ev
  | busWrite : Nat → Ev
  | busRead : Nat → Ev
  | byteWriteEv : Nat → Nat → Ev
  | latchEv : Ev
  deriving DecidableEq

/-- One `read(fd, &data, 1)` call: the C code never checks the result, so
a failed read (exhausted oracle) leaves the buffer holding its previous
value `cur`. -/
def readOne (cur : Nat) (e : Env) : Nat × Env :=
  match e.reads with
  | [] => (cur, e)
  | r :: rest => (r, {e with reads := rest})

/-- writeReg (lcd_io.c): push the register image to the expander.  With a
cached descriptor it is a single bus write; otherwise it opens a
transient connection, writes once and closes it, never storing the
transient descriptor into the device. -/
def writeReg (d : LCDDev) (e : Env) : Int × LCDDev × List Ev :=
  if d.fd then
    (EOK, d, [Ev.busWrite (regval d.reg)])
  else
    match d.device with
    | some _ =>
      if e.openOk then
        if e.ioctlOk then
          (EOK, d, [Ev.openEv, Ev.busWrite (regval d.reg), Ev.closeEv])
        else
          (ENXIOCode, d, [Ev.openEv, Ev.closeEv])
      else
        (e.openErrno, d, [])
    | none => (ENODEV, d, [])

/-- latch (lcd_io.c): raise EN, write the register, lower EN, write again.
The two writeReg results are ignored, as in the source.  A ghost
`latchEv` marks the call. -/
def latch (d : LCDDev) (e : Env) : Int × LCDDev × List Ev :=
  let d1 := {d with reg := setEN d.reg 1}
  let t1 := (writeReg d1 e).2.2
  let d2 := {d1 with reg := setEN d1.reg 0}
  let t2 := (writeReg d2 e).2.2
  (EOK, d2, Ev.latchEv :: (t1 ++ t2))

/-- readByte (lcd_io.c): 4-bit status read.  Requires an open descriptor
(else EBADF, no effect).  Drives RS=0, RW=1, D4=0xF, strobes EN twice,
sampling a byte at each strobe; the status value is
`(read1 & 0xF0) | ((read2 & 0xF0) >> 4)`. -/
def readByte (d : LCDDev) (e : Env) : Int × Nat × LCDDev × Env × List Ev :=
  if d.fd then
    let d1 := {d with reg := setD4 (setRW (setRS d.reg 0) 1) 0x0F}
    let w1 := Ev.busWrite (regval d1.reg)
    let d2 := {d1 with reg := setEN d1.reg 1}
    let w2 := Ev.busWrite (regval d2.reg)
    let p1 := readOne 0 e
    let dataHigh := p1.1 &&& 0xF0
    let d3 := {d2 with reg := setEN d2.reg 0}
    let w3 := Ev.busWrite (regval d3.reg)
    let d4 := {d3 with reg := setEN d3.reg 1}
    let w4 := Ev.busWrite (regval d4.reg)
    let p2 := readOne p1.1 p1.2
    let dataLow := (p2.1 &&& 0xF0) >>> 4
    let d5 := {d4 with reg := setEN d4.reg 0}
    let w5 := Ev.busWrite (regval d5.reg)
    (EOK, dataHigh ||| dataLow, d5, p2.2,
      [w1, w2, Ev.busRead p1.1, w3, w4, Ev.busRead p2.1, w5])
  else
    (EBADF, 0, d, e, [])

/-- readStatus (lcd_io.c): read the status byte and decode it: bit 7 is
the busy flag, bits 0-6 the address counter; cx = (AC & 0x3F) + 1 and
cy = 2 when AC >= 0x40, else 1.  EBADF when no descriptor is cached. -/
def readStatus (d : LCDDev) (e : Env) : Int × LCDDev × Env × List Ev :=
  if d.fd then
    let q := readByte d e
    if q.1 = EOK then
      let val := q.2.1
      let ac := val &&& 0x7F
      (EOK,
        {q.2.2.1 with
          busy := (val &&& 0x80) != 0
          AddressCounter := ac
          cx := ((ac &&& 0x3F : Nat) : Int) + 1
          cy := if 0x40 ≤ ac then (2 : Int) else 1},
        q.2.2.2.1, q.2.2.2.2)
    else
      (q.1, q.2.2.1, q.2.2.2.1, q.2.2.2.2)
  else
    (EBADF, d, e, [])

/-- GetStatus (lcd_io.c): readStatus on the cached descriptor; with no
descriptor it opens a transient one, reads the status through it, then
restores `fd = -1` and closes.  ENODEV with no device path, ENXIOCode when
ioctl fails, errno when open fails. -/
def GetStatus (d : LCDDev) (e : Env) : Int × LCDDev × Env × List Ev :=
  if d.fd then
    readStatus d e
  else
    match d.device with
    | some _ =>
      if e.openOk then
        if e.ioctlOk then
          let q := readStatus {d with fd := true} e
          (q.1, {q.2.1 with fd := false}, q.2.2.1,
            Ev.openEv :: (q.2.2.2 ++ [Ev.closeEv]))
        else
          (ENXIOCode, d, e, [Ev.openEv, Ev.closeEv])
      else
        (e.openErrno, d, e, [])
    | none => (ENODEV, d, e, [])

/-- The busy-poll loop of writeByte (`do result = GetStatus while busy`),
with explicit fuel.  `writeByte` supplies fuel `reads.length + 1`, which
is exact for the C loop: see the file header. -/
def pollStatus : Nat → LCDDev → Env → Option (Int × LCDDev × Env × List Ev)
  | 0, _, _ => none
  | Nat.succ fuel, d, e =>
    let q := GetStatus d e
    if q.2.1.busy then
      match pollStatus fuel q.2.1 q.2.2.1 with
      | none => none
      | some (r, d2, e2, t2) => some (r, d2, e2, q.2.2.2 ++ t2)
    else
      some (q.1, q.2.1, q.2.2.1, q.2.2.2)

/-- writeByte (lcd_io.c): stage RS (1 iff rs nonzero) and RW=0, transfer
the high nibble, latch, transfer the low nibble, latch, then poll the
status until busy clears, returning the final GetStatus result.  A ghost
`byteWriteEv rs val` marks the call. -/
def writeByte (d : LCDDev) (e : Env) (rs val : Nat) :
    Option (Int × LCDDev × Env × List Ev) :=
  let d1 := {d with reg := setRW (setRS d.reg (if rs ≠ 0 then 1 else 0)) 0}
  let d2 := {d1 with reg := setD4 d1.reg ((val &&& 0xF0) >>> 4)}
  let t1 := (writeReg d2 e).2.2
  let q1 := latch d2 e
  let d3 := q1.2.1
  let d4 := {d3 with reg := setD4 d3.reg (val &&& 0x0F)}
  let t2 := (writeReg d4 e).2.2
  let q2 := latch d4 e
  let d5 := q2.2.1
  match pollStatus (e.reads.length + 1) d5 e with
  | none => none
  | some (r, d6, e6, pt) =>
    some (r, d6, e6, Ev.byteWriteEv rs val :: (t1 ++ q1.2.2 ++ t2 ++ q2.2.2 ++ pt))

/-- LCDOpen (lcd_io.c): no-op when a descriptor is cached; otherwise open
the configured device, set the slave address, write the register image
once, and cache the descriptor. -/
def LCDOpen (d : LCDDev) (e : Env) : Int × LCDDev × List Ev :=
  if d.fd then
    (EOK, d, [])
  else
    match d.device with
    | some _ =>
      if e.openOk then
        if e.ioctlOk then
          (EOK, {d with fd := true}, [Ev.openEv, Ev.busWrite (regval d.reg)])
        else
          (ENXIOCode, d, [Ev.openEv, Ev.closeEv])
      else
        (e.openErrno, d, [])
    | none => (ENODEV, d, [])

/-- LCDClose (lcd_io.c): close the cached descriptor unless the exclusive
flag is set; in every case (for a non-null device) the result is EOK. -/
def LCDClose (d : LCDDev) : Int × LCDDev × List Ev :=
  if d.fd = true ∧ d.exclusive = false then
    (EOK, {d with fd := false}, [Ev.closeEv])
  else
    (EOK, d, [])

/-- ClearDisplay (lcd_ctrl.c): instruction 0x01 through writeByte. -/
def ClearDisplay (d : LCDDev) (e : Env) : Option (Int × LCDDev × Env × List Ev) :=
  writeByte d e 0 0x01

/-- CursorHome (lcd_ctrl.c): instruction 0x02 through writeByte. -/
def CursorHome (d : LCDDev) (e : Env) : Option (Int × LCDDev × Env × List Ev) :=
  writeByte d e 0 0x02

/-- Cursor (lcd_ctrl.c): display on, cursor on, blink (0x0F). -/
def Cursor (d : LCDDev) (e : Env) : Option (Int × LCDDev × Env × List Ev) :=
  writeByte d e 0 0x0F

/-- SetADD (lcd_ctrl.c): Set-DDRAM-address instruction `0x80 | loc`.  The
`% 256` models the conversion of the argument to the `uint8_t`
parameter. -/
def SetADD (d : LCDDev) (e : Env) (loc : Nat) : Option (Int × LCDDev × Env × List Ev) :=
  writeByte d e 0 (0x80 ||| (loc % 256))

/-- Set4BitMode (lcd_io.c): function-set 0x38 (8-bit resync), a single
raw nibble 0x2 latched in, then function-set 0x28; EOK only when both
writeByte calls returned EOK, otherwise ENXIOCode. -/
def Set4BitMode (d : LCDDev) (e : Env) : Option (Int × LCDDev × Env × List Ev) :=
  match writeByte d e 0 0x38 with
  | none => none
  | some (rc1, d1, e1, t1) =>
    let d2 := {d1 with reg := setD4 (setRW (setRS d1.reg 0) 0) 0x02}
    let t2 := (writeReg d2 e1).2.2
    let q := latch d2 e1
    let d3 := q.2.1
    match writeByte d3 e1 0 0x28 with
    | none => none
    | some (rc2, d4, e2, t4) =>
      let res := if rc1 = EOK ∧ rc2 = EOK then EOK else ENXIOCode
      some (res, d4, e2, t1 ++ t2 ++ q.2.2 ++ t4)

/-- LCDInit (lcd_ctrl.c): open, Set4BitMode; only when that returned EOK
clear the display, home the cursor and set the cursor mode (their results
are discarded); close; return the Set4BitMode (or open) result. -/
def LCDInit (d : LCDDev) (e : Env) : Option (Int × LCDDev × Env × List Ev) :=
  let o := LCDOpen d e
  if o.1 = EOK then
    match Set4BitMode o.2.1 e with
    | none => none
    | some (r1, d1, e1, t1) =>
      if r1 = EOK then
        match ClearDisplay d1 e1 with
        | none => none
        | some (_, d2, e2, t2) =>
          match CursorHome d2 e2 with
          | none => none
          | some (_, d3, e3, t3) =>
            match Cursor d3 e3 with
            | none => none
            | some (_, d4, e4, t4) =>
              let c := LCDClose d4
              some (r1, c.2.1, e4, o.2.2 ++ t1 ++ t2 ++ t3 ++ t4 ++ c.2.2)
      else
        let c := LCDClose d1
        some (r1, c.2.1, e1, o.2.2 ++ t1 ++ c.2.2)
  else
    some (o.1, o.2.1, e, o.2.2)

/-- The 17-iteration character loop of DisplayLine: `ch = line[i]`, nulls
replaced by 0x20, written with rs = 1; a failing write updates the
running result but the loop continues.  Bytes beyond the end of `line`
model zero memory after the buffer and read as 0. -/
def dispLoop (line : List Nat) (idx : List Nat) (d : LCDDev) (e : Env) (res : Int) :
    Option (Int × LCDDev × Env × List Ev) :=
  match idx with
  | [] => some (res, d, e, [])
  | i :: is =>
    let ch0 := line.getD i 0
    let ch := if ch0 = 0 then 0x20 else ch0
    match writeByte d e 1 ch with
    | none => none
    | some (rc, d1, e1, t1) =>
      let res1 := if rc ≠ EOK then rc else res
      match dispLoop line is d1 e1 res1 with
      | none => none
      | some (r, d2, e2, t2) => some (r, d2, e2, t1 ++ t2)

/-- DisplayLine (lcd_ctrl.c): open, SetADD at the offset, write 17 data
bytes, close (close result discarded); the returned result is the open
or SetADD failure, or the loop's folded result. -/
def DisplayLine (d : LCDDev) (e : Env) (offset : Nat) (line : List Nat) :
    Option (Int × LCDDev × Env × List Ev) :=
  let o := LCDOpen d e
  if o.1 = EOK then
    match SetADD o.2.1 e offset with
    | none => none
    | some (r1, d1, e1, t1) =>
      if r1 = EOK then
        match dispLoop line (List.range 17) d1 e1 r1 with
        | none => none
        | some (r, d2, e2, t2) =>
          let c := LCDClose d2
          some (r, c.2.1, e2, o.2.2 ++ t1 ++ t2 ++ c.2.2)
      else
        let c := LCDClose d1
        some (r1, c.2.1, e1, o.2.2 ++ t1 ++ c.2.2)
  else
    some (o.1, o.2.1, e, o.2.2)

/-- GetExclusive (lcd_io.c). -/
def GetExclusive (d : LCDDev) : Int × Bool := (EOK, d.exclusive)

/-- SetExclusive (lcd_io.c): stores the flag but never sets its result
variable, so it returns EINVAL even on success. -/
def SetExclusive (d : LCDDev) (x : Bool) : Int × LCDDev :=
  (EINVAL, {d with exclusive := x})

/-- GetBacklight (lcd_io.c): the LED bit as a boolean. -/
def GetBacklight (d : LCDDev) : Int × Bool := (EOK, d.reg.LED != 0)

/-- SetBacklight (lcd_io.c): stores the LED bit and pushes the register,
but never sets its result variable, so it returns EINVAL even on
success. -/
def SetBacklight (d : LCDDev) (e : Env) (b : Bool) : Int × LCDDev × List Ev :=
  let d1 := {d with reg := setLED d.reg (if b then 1 else 0)}
  (EINVAL, d1, (writeReg d1 e).2.2)

/-- GetCursorX (lcd_io.c). -/
def GetCursorX (d : LCDDev) : Int × Int := (EOK, d.cx)

/-- GetCursorY (lcd_io.c). -/
def GetCursorY (d : LCDDev) : Int × Int := (EOK, d.cy)

/-- GetAddress (lcd_io.c). -/
def GetAddress (d : LCDDev) : Int × Nat := (EOK, d.address)

/-- SetAddress (lcd_io.c); `% 256` models the `uint8_t` parameter. -/
def SetAddress (d : LCDDev) (a : Nat) : Int × LCDDev :=
  (EOK, {d with address := a % 256})

/-- Values of the data-register byte writes in a trace (ghost markers
with nonzero register select). -/
def dataWrites (t : List Ev) : List Nat :=
  t.filterMap fun ev =>
    match ev with
    | Ev.byteWriteEv rs v => if rs ≠ 0 then some v else none
    | _ => none

/-- All writeByte calls (register select, value) recorded in a trace. -/
def byteWrites (t : List Ev) : List (Nat × Nat) :=
  t.filterMap fun ev =>
    match ev with
    | Ev.byteWriteEv rs v => some (rs, v)
    | _ => none

/-- Number of latch cycles recorded in a trace. -/
def latchCount (t : List Ev) : Nat :=
  (t.filter fun ev => ev == Ev.latchEv).length

/-- Bytes physically written on the bus in a trace. -/
def busWrites (t : List Ev) : List Nat :=
  t.filterMap fun ev =>
    match ev with
    | Ev.busWrite b => some b
    | _ => none

/-- Bytes sampled from the bus in a trace. -/
def busReads (t : List Ev) : List Nat :=
  t.filterMap fun ev =>
    match ev with
    | Ev.busRead b => some b
    | _ => none

/-- Modelled from the spec: the display-line semantics the specification
describes for `displayLine` — visible content truncated at the first null
byte, with spaces (0x20) filling all remaining positions of the 17
written bytes.  Used only to compare the spec's words with the code. -/
def specLineBytes (line : List Nat) : List Nat :=
  (List.range 17).map fun i =>
    if (List.range (i + 1)).all (fun j => line.getD j 0 != 0) then line.getD i 0
    else 0x20

/-- Sample device: open descriptor, default address and path, backlight
on, shared (non-exclusive) mode. -/
def dev0 : LCDDev :=
  { device := some "/dev/i2c-1", fd := true, busy := false, exclusive := false,
    address := 0x27, AddressCounter := 0, cx := 1, cy := 1,
    reg := { RS := 0, RW := 0, EN := 0, LED := 1, D4 := 0 } }

/-- Sample environment: open and ioctl succeed, empty read oracle. -/
def env0 : Env :=
  { openOk := true, ioctlOk := true, openErrno := 5, reads := [] }

/-- A device with no configured path and no open descriptor. -/
def devBroken : LCDDev := {dev0 with device := none, fd := false}

/-- A configured but closed device. -/
def devClosed : LCDDev := {dev0 with fd := false}

/-- An open device whose exclusive flag is set. -/
def devExcl : LCDDev := {dev0 with exclusive := true}

/-- A 17-byte input buffer with an embedded null at index 1 followed by a
non-null byte: "A", NUL, "B", then nulls. -/
def lineCE : List Nat := [65, 0, 66] ++ List.replicate 14 0

/-- Oracle bytes that make one 4-bit status read assemble the status byte
`a`: the first sampled byte carries the status high nibble in its upper
four bits, the second the status low nibble in its upper four bits. -/
def statusReadsFor (a : Nat) (rest : List Nat) : List Nat :=
  (a &&& 0xF0) :: (((a &&& 0x0F) <<< 4) :: rest)

/-- Register-select bit staged by writeByte: 1 iff the rs argument is
nonzero. -/
def wbBit (rs : Nat) : Nat := if rs ≠ 0 then 1 else 0

/-- High nibble of the value, transferred first by writeByte. -/
def wbHi (v : Nat) : Nat := (v &&& 0xF0) >>> 4

/-- Low nibble of the value, transferred second by writeByte. -/
def wbLo (v : Nat) : Nat := v &&& 0x0F

/-- The six bus writes (and two latch markers) writeByte performs before
its busy poll, starting from register image `r0`: high nibble staged and
written, latched (EN high then low, a write at each transition), then
the low nibble likewise. -/
def wbTransferTrace (r0 : CtrlReg) (rs v : Nat) : List Ev :=
  let rA := setD4 (setRW (setRS r0 (wbBit rs)) 0) (wbHi v)
  let rB := setEN rA 1
  let rC := setEN rB 0
  let rD := setD4 rC (wbLo v)
  let rE := setEN rD 1
  let rF := setEN rE 0
  [Ev.busWrite (regval rA), Ev.latchEv, Ev.busWrite (regval rB), Ev.busWrite (regval rC),
   Ev.busWrite (regval rD), Ev.latchEv, Ev.busWrite (regval rE), Ev.busWrite (regval rF)]

theorem byteWrites_append (a b : List Ev) :
    byteWrites (a ++ b) = byteWrites a ++ byteWrites b :=
  List.filterMap_append a b _

theorem dataWrites_append (a b : List Ev) :
    dataWrites (a ++ b) = dataWrites a ++ dataWrites b :=
  List.filterMap_append a b _

theorem latchCount_append (a b : List Ev) :
    latchCount (a ++ b) = latchCount a + latchCount b := by
  simp [latchCount, List.filter_append]

theorem dataWrites_nil_of_byteWrites (t : List Ev) (h : byteWrites t = []) :
    dataWrites t = [] := by
  induction t with
  | nil => rfl
  | cons ev rest ih =>
    cases ev with
    | byteWriteEv rs v => simp [byteWrites] at h
    | openEv => exact ih (by simpa [byteWrites] using h)
    | closeEv => exact ih (by simpa [byteWrites] using h)
    | busWrite b => exact ih (by simpa [byteWrites] using h)
    | busRead b => exact ih (by simpa [byteWrites] using h)
    | latchEv => exact ih (by simpa [byteWrites] using h)

theorem readStatus_open (d : LCDDev) (e : Env) (hfd : d.fd = true) :
    ∃ d' e' t, readStatus d e = (EOK, d', e', t) ∧ d'.fd = true ∧
      d'.device = d.device ∧ d'.exclusive = d.exclusive ∧
      byteWrites t = [] ∧ latchCount t = 0 ∧
      (d'.busy = true → e'.reads.length < e.reads.length) := by
  match hr : e.reads with
  | [] =>
    simp only [readStatus, readByte, readOne, hfd, hr, if_true, eq_self_iff_true]
    refine ⟨_, _, _, rfl, rfl, rfl, rfl, rfl, rfl, ?_⟩
    intro h
    simp at h
  | [r1] =>
    simp only [readStatus, readByte, readOne, hfd, hr, if_true, eq_self_iff_true]
    refine ⟨_, _, _, rfl, rfl, rfl, rfl, rfl, rfl, ?_⟩
    intro _
    simp only [List.length_cons, List.length_nil]
    omega
  | r1 :: r2 :: rest =>
    simp only [readStatus, readByte, readOne, hfd, hr, if_true, eq_self_iff_true]
    refine ⟨_, _, _, rfl, rfl, rfl, rfl, rfl, rfl, ?_⟩
    intro _
    simp only [List.length_cons, List.length_nil]
    omega

theorem GetStatus_open (d : LCDDev) (e : Env) (hfd : d.fd = true) :
    GetStatus d e = readStatus d e := by
  simp [GetStatus, hfd]

theorem pollStatus_open :
    ∀ (fuel : Nat) (d : LCDDev) (e : Env), d.fd = true → e.reads.length < fuel →
    ∃ d' e' t, pollStatus fuel d e = some (EOK, d', e', t) ∧ d'.fd = true ∧
      d'.busy = false ∧ d'.device = d.device ∧ d'.exclusive = d.exclusive ∧
      byteWrites t = [] ∧ latchCount t = 0 := by
  intro fuel
  induction fuel with
  | zero => intro d e _ hlt; omega
  | succ n ih =>
    intro d e hfd hlt
    obtain ⟨d1, e1, t, hrs, hfd1, hdev1, hexc1, hbw, hlc, hprog⟩ :=
      readStatus_open d e hfd
    have hgs : GetStatus d e = (EOK, d1, e1, t) := (GetStatus_open d e hfd).trans hrs
    match hb : d1.busy with
    | false =>
      refine ⟨d1, e1, t, ?_, hfd1, hb, hdev1, hexc1, hbw, hlc⟩
      simp [pollStatus, hgs, hb]
    | true =>
      have hlt1 : e1.reads.length < n := by
        have := hprog hb
        omega
      obtain ⟨d2, e2, pt, hp, hfd2, hbusy2, hdev2, hexc2, hbw2, hlc2⟩ := ih d1 e1 hfd1 hlt1
      refine ⟨d2, e2, t ++ pt, ?_, hfd2, hbusy2, hdev2.trans hdev1, hexc2.trans hexc1, ?_, ?_⟩
      · simp [pollStatus, hgs, hb, hp]
      · simp [byteWrites_append, hbw, hbw2]
      · simp [latchCount_append, hlc, hlc2]

/-- The device as it stands when writeByte enters its busy poll: RS and
RW staged, both nibbles transferred, EN back low. -/
def wbStaged (d : LCDDev) (rs v : Nat) : LCDDev :=
  {d with reg := setEN (setEN (setD4 (setEN (setEN
    (setD4 (setRW (setRS d.reg (wbBit rs)) 0) (wbHi v)) 1) 0) (wbLo v)) 1) 0}

theorem writeByte_unfold (d : LCDDev) (e : Env) (rs v : Nat) (hfd : d.fd = true) :
    writeByte d e rs v =
      match pollStatus (e.reads.length + 1) (wbStaged d rs v) e with
      | none => none
      | some (r, d6, e6, pt) =>
        some (r, d6, e6, Ev.byteWriteEv rs v :: (wbTransferTrace d.reg rs v ++ pt)) := by
  simp only [writeByte, writeReg, latch, wbStaged, wbTransferTrace, wbBit, wbHi, wbLo,
    hfd, if_true, List.cons_append, List.nil_append, List.append_assoc]

theorem writeByte_open (d : LCDDev) (e : Env) (rs v : Nat) (hfd : d.fd = true) :
    ∃ d' e' pt, writeByte d e rs v =
        some (EOK, d', e', Ev.byteWriteEv rs v :: (wbTransferTrace d.reg rs v ++ pt)) ∧
      d'.fd = true ∧ d'.busy = false ∧ d'.device = d.device ∧ d'.exclusive = d.exclusive ∧
      byteWrites pt = [] ∧ latchCount pt = 0 := by
  obtain ⟨d', e', pt, hp, hfd', hbusy', hdev', hexc', hbw, hlc⟩ :=
    pollStatus_open (e.reads.length + 1) (wbStaged d rs v) e (by simpa [wbStaged] using hfd)
      (Nat.lt_succ_self _)
  refine ⟨d', e', pt, ?_, hfd', hbusy', by simpa [wbStaged] using hdev',
    by simpa [wbStaged] using hexc', hbw, hlc⟩
  rw [writeByte_unfold d e rs v hfd, hp]

theorem dataWrites_wbTransferTrace (r : CtrlReg) (rs v : Nat) :
    dataWrites (wbTransferTrace r rs v) = [] := by
  simp [wbTransferTrace, dataWrites]

theorem byteWrites_wbTransferTrace (r : CtrlReg) (rs v : Nat) :
    byteWrites (wbTransferTrace r rs v) = [] := by
  simp [wbTransferTrace, byteWrites]

theorem latchCount_wbTransferTrace (r : CtrlReg) (rs v : Nat) :
    latchCount (wbTransferTrace r rs v) = 2 := by
  simp [wbTransferTrace, latchCount]

theorem dataWrites_LCDClose (d : LCDDev) : dataWrites (LCDClose d).2.2 = [] := by
  unfold LCDClose
  split <;> rfl

theorem dataWrites_cons_data (rs v : Nat) (t : List Ev) (h : rs ≠ 0) :
    dataWrites (Ev.byteWriteEv rs v :: t) = v :: dataWrites t := by
  simp [dataWrites, h]

theorem dispLoop_open (line : List Nat) :
    ∀ (idx : List Nat) (d : LCDDev) (e : Env) (res : Int), d.fd = true →
    ∃ d' e' t, dispLoop line idx d e res = some (res, d', e', t) ∧ d'.fd = true ∧
      dataWrites t =
        idx.map (fun i => if line.getD i 0 = 0 then 0x20 else line.getD i 0) := by
  intro idx
  induction idx with
  | nil =>
    intro d e res hfd
    exact ⟨d, e, [], rfl, hfd, rfl⟩
  | cons i is ih =>
    intro d e res hfd
    obtain ⟨d1, e1, pt, hw, hfd1, _, _, _, hbw, _⟩ :=
      writeByte_open d e 1 (if line.getD i 0 = 0 then 0x20 else line.getD i 0) hfd
    obtain ⟨d2, e2, t2, hl, hfd2, hdw⟩ := ih d1 e1 res hfd1
    refine ⟨d2, e2,
      (Ev.byteWriteEv 1 (if line.getD i 0 = 0 then 0x20 else line.getD i 0) ::
        (wbTransferTrace d.reg 1 (if line.getD i 0 = 0 then 0x20 else line.getD i 0) ++ pt)) ++ t2,
      ?_, hfd2, ?_⟩
    · have hres : (if EOK ≠ EOK then EOK else res) = res := by simp
      simp only [dispLoop, hw, hres, hl]
    · rw [List.cons_append, dataWrites_cons_data 1 _ _ (by decide), List.append_assoc,
        dataWrites_append, dataWrites_wbTransferTrace, List.nil_append, dataWrites_append,
        dataWrites_nil_of_byteWrites pt hbw, List.nil_append, hdw, List.map_cons]

theorem dataWrites_cons_instr (v : Nat) (t : List Ev) :
    dataWrites (Ev.byteWriteEv 0 v :: t) = dataWrites t := by
  simp [dataWrites]

theorem byteWrites_cons (rs v : Nat) (t : List Ev) :
    byteWrites (Ev.byteWriteEv rs v :: t) = (rs, v) :: byteWrites t := by
  simp [byteWrites]

theorem latchCount_cons_byteWrite (rs v : Nat) (t : List Ev) :
    latchCount (Ev.byteWriteEv rs v :: t) = latchCount t := by
  simp [latchCount]

/-- C1 (amended): for every non-null device holding an open connection
and every input buffer (bytes beyond the end of the buffer model the
zeroed memory after it), DisplayLine succeeds and issues exactly 17
data-register byte writes; the i-th written byte is the i-th input byte
when it is non-null and a space (0x20) otherwise.  Each null byte is
replaced by a space individually: an embedded null does not truncate the
remainder of the line. -/
theorem displayLine_seventeen_data_writes (d : LCDDev) (e : Env) (off : Nat)
    (line : List Nat) (hfd : d.fd = true) :
    ∃ d' e' t, DisplayLine d e off line = some (EOK, d', e', t) ∧
      dataWrites t =
        (List.range 17).map (fun i => if line.getD i 0 = 0 then 0x20 else line.getD i 0) ∧
      (dataWrites t).length = 17 := by
  obtain ⟨d1, e1, pt, hw, hfd1, _, _, _, hbw, _⟩ :=
    writeByte_open d e 0 (0x80 ||| (off % 256)) hfd
  obtain ⟨d2, e2, t2, hl, hfd2, hdw⟩ := dispLoop_open line (List.range 17) d1 e1 EOK hfd1
  have hopen : LCDOpen d e = (EOK, d, []) := by simp [LCDOpen, hfd]
  simp only [DisplayLine, SetADD, hopen, hw, hl, eq_self_iff_true, if_true]
  refine ⟨_, _, _, rfl, ?_, ?_⟩
  · simp only [List.nil_append, List.cons_append, dataWrites_append, dataWrites_cons_instr,
      dataWrites_wbTransferTrace, dataWrites_LCDClose, dataWrites_nil_of_byteWrites pt hbw,
      List.append_nil, hdw]
  · simp only [List.nil_append, List.cons_append, dataWrites_append, dataWrites_cons_instr,
      dataWrites_wbTransferTrace, dataWrites_LCDClose, dataWrites_nil_of_byteWrites pt hbw,
      List.append_nil, hdw, List.length_map, List.length_range]

/-- Witness for C1's amended theorem at a concrete device, environment
and two-character line. -/
theorem displayLine_seventeen_data_writes_witness :
    ∃ d' e' t, DisplayLine dev0 env0 0 [72, 105] = some (EOK, d', e', t) ∧
      dataWrites t =
        (List.range 17).map
          (fun i => if ([72, 105] : List Nat).getD i 0 = 0 then 0x20
            else ([72, 105] : List Nat).getD i 0) ∧
      (dataWrites t).length = 17 :=
  displayLine_seventeen_data_writes dev0 env0 0 [72, 105] rfl

/-- C1 counterexample: (i) on the non-null device devBroken (no path, no
connection) DisplayLine performs 0 data-register writes, not 17; (ii) on
an open device the embedded null in lineCE does not truncate — the
actual data writes are A, space, B, spaces, while the claim's
truncate-and-space-fill semantics (specLineBytes) demands A then all
spaces; the two disagree. -/
theorem displayLine_counterexample :
    (DisplayLine devBroken env0 0 lineCE).map (fun q => (dataWrites q.2.2.2).length) =
      some 0 ∧
    (DisplayLine dev0 env0 0 lineCE).map (fun q => dataWrites q.2.2.2) =
      some ([65, 32, 66] ++ List.replicate 14 32) ∧
    specLineBytes lineCE = [65] ++ List.replicate 16 32 ∧
    ([65, 32, 66] ++ List.replicate 14 32 : List Nat) ≠ [65] ++ List.replicate 16 32 :=
  ⟨by decide, by decide, by decide, by decide⟩

/-- C2 (amended): for every non-null device holding an open connection,
each writeByte call transfers the high nibble first and the low nibble
second, with exactly two latch cycles — EN driven high then low and the
register written at each transition (the explicit trace
wbTransferTrace) — and then busy-polls; when the loop exits, the final
status read reported busy = false (the device busy flag it decoded), and
the call returns that final status read's result (EOK). -/
theorem writeByte_two_latch_cycles (d : LCDDev) (e : Env) (rs v : Nat) (hfd : d.fd = true) :
    ∃ d' e' pt, writeByte d e rs v =
        some (EOK, d', e', Ev.byteWriteEv rs v :: (wbTransferTrace d.reg rs v ++ pt)) ∧
      latchCount (Ev.byteWriteEv rs v :: (wbTransferTrace d.reg rs v ++ pt)) = 2 ∧
      d'.busy = false ∧ d'.fd = true := by
  obtain ⟨d', e', pt, hw, hfd', hbusy', _, _, _, hlc⟩ := writeByte_open d e rs v hfd
  refine ⟨d', e', pt, hw, ?_, hbusy', hfd'⟩
  rw [latchCount_cons_byteWrite, latchCount_append, latchCount_wbTransferTrace, hlc]

/-- Witness for C2's amended theorem at a concrete device and value. -/
theorem writeByte_two_latch_cycles_witness :
    ∃ d' e' pt, writeByte dev0 env0 0 0x38 =
        some (EOK, d', e', Ev.byteWriteEv 0 0x38 :: (wbTransferTrace dev0.reg 0 0x38 ++ pt)) ∧
      latchCount (Ev.byteWriteEv 0 0x38 :: (wbTransferTrace dev0.reg 0 0x38 ++ pt)) = 2 ∧
      d'.busy = false ∧ d'.fd = true :=
  writeByte_two_latch_cycles dev0 env0 0 0x38 rfl

/-- C2 counterexample: on the non-null device devBroken (no path, no
connection, busy flag clear) writeByte performs zero bus register writes
and zero status samples — so no register is written at the strobe
transitions and no status read reports busy = false — and it returns
ENODEV, which is not the result of any status read. -/
theorem writeByte_counterexample :
    (writeByte devBroken env0 0 0x38).map
        (fun q => (busWrites q.2.2.2, busReads q.2.2.2, q.1)) =
      some ([], [], ENODEV) := by
  decide

/-- C4: a status read on a non-null device holding no connection fails
with EBADF (the NotConnected-class error), performs no bus traffic — in
particular it neither opens nor closes the bus device — and leaves both
the device (including its connection state) and the environment
unchanged.  This holds for the raw 4-bit read readByte and its decoding
wrapper readStatus. -/
theorem readStatus_notConnected (d : LCDDev) (e : Env) (hfd : d.fd = false) :
    readByte d e = (EBADF, 0, d, e, []) ∧ readStatus d e = (EBADF, d, e, []) := by
  constructor <;> simp [readByte, readStatus, hfd]

/-- Witness for C4 at a concrete closed device. -/
theorem readStatus_notConnected_witness :
    readByte devClosed env0 = (EBADF, 0, devClosed, env0, []) ∧
    readStatus devClosed env0 = (EBADF, devClosed, env0, []) :=
  readStatus_notConnected devClosed env0 rfl

theorem statusByte_assemble :
    ∀ a : Nat, a < 128 →
      ((a &&& 0xF0) &&& 0xF0) ||| ((((a &&& 0x0F) <<< 4) &&& 0xF0) >>> 4) = a := by
  decide

theorem and7F_small : ∀ a : Nat, a < 128 → a &&& 0x7F = a := by
  decide

theorem and3F_mod : ∀ a : Nat, a < 128 → a &&& 0x3F = a % 64 := by
  decide

/-- C5: for every address a in [0,127], SetADD issues a single
instruction-register (rs = 0) byte write of the opcode `0x80 | a`, and a
status read that observes address-counter value a derives cursor row 2
iff a >= 0x40 (else row 1) and cursor column (a mod 0x40) + 1. -/
theorem setADD_opcode_and_cursor (d : LCDDev) (e : Env) (a : Nat) (rest : List Nat)
    (ha : a < 128) (hfd : d.fd = true) :
    (∃ d' e' t, SetADD d e a = some (EOK, d', e', t) ∧
      byteWrites t = [(0, 0x80 ||| a)]) ∧
    ((readStatus d {e with reads := statusReadsFor a rest}).1 = EOK ∧
     (readStatus d {e with reads := statusReadsFor a rest}).2.1.AddressCounter = a ∧
     (readStatus d {e with reads := statusReadsFor a rest}).2.1.cy =
       (if 0x40 ≤ a then (2 : Int) else 1) ∧
     (readStatus d {e with reads := statusReadsFor a rest}).2.1.cx =
       ((a % 0x40 : Nat) : Int) + 1) := by
  constructor
  · obtain ⟨d1, e1, pt, hw, _, _, _, _, hbw, _⟩ :=
      writeByte_open d e 0 (0x80 ||| (a % 256)) hfd
    have hmod : a % 256 = a := Nat.mod_eq_of_lt (by omega)
    rw [hmod] at hw
    refine ⟨d1, e1,
      Ev.byteWriteEv 0 (0x80 ||| a) :: (wbTransferTrace d.reg 0 (0x80 ||| a) ++ pt), ?_, ?_⟩
    · simp only [SetADD, hmod, hw]
    · rw [byteWrites_cons, byteWrites_append, byteWrites_wbTransferTrace, hbw]
      rfl
  · simp only [readStatus, readByte, readOne, statusReadsFor, hfd, if_true,
      eq_self_iff_true]
    rw [statusByte_assemble a ha]
    rw [and7F_small a ha, and3F_mod a ha]
    simp

/-- Witness for C5 at address 0x45 (row 2, column 6). -/
theorem setADD_opcode_and_cursor_witness :
    (readStatus dev0 {env0 with reads := statusReadsFor 0x45 []}).2.1.cy = 2 ∧
    (readStatus dev0 {env0 with reads := statusReadsFor 0x45 []}).2.1.cx = 6 := by
  have h := setADD_opcode_and_cursor dev0 env0 0x45 [] (by decide) rfl
  constructor
  · rw [h.2.2.2.1]
    norm_num
  · rw [h.2.2.2.2]
    norm_num

/-- C6 (amended): for every address-counter value in [0,127] observed by
a status read, the derived cursor X (as returned by GetCursorX) lies in
the range 1 to 64 — not 1 to 16 as claimed — and the derived cursor Y
(as returned by GetCursorY) lies in the range 1 to 2. -/
theorem cursor_range (d : LCDDev) (e : Env) (a : Nat) (rest : List Nat)
    (ha : a < 128) (hfd : d.fd = true) :
    1 ≤ (GetCursorX (readStatus d {e with reads := statusReadsFor a rest}).2.1).2 ∧
    (GetCursorX (readStatus d {e with reads := statusReadsFor a rest}).2.1).2 ≤ 64 ∧
    1 ≤ (GetCursorY (readStatus d {e with reads := statusReadsFor a rest}).2.1).2 ∧
    (GetCursorY (readStatus d {e with reads := statusReadsFor a rest}).2.1).2 ≤ 2 := by
  simp only [readStatus, readByte, readOne, statusReadsFor, GetCursorX, GetCursorY,
    hfd, if_true, eq_self_iff_true]
  rw [statusByte_assemble a ha, and7F_small a ha, and3F_mod a ha]
  have hm : a % 64 < 64 := Nat.mod_lt _ (by omega)
  refine ⟨by omega, by omega, ?_, ?_⟩ <;> split <;> omega

/-- Witness for C6's amended theorem at address-counter 0x27. -/
theorem cursor_range_witness :
    1 ≤ (GetCursorX (readStatus dev0 {env0 with reads := statusReadsFor 0x27 []}).2.1).2 ∧
    (GetCursorX (readStatus dev0 {env0 with reads := statusReadsFor 0x27 []}).2.1).2 ≤ 64 ∧
    1 ≤ (GetCursorY (readStatus dev0 {env0 with reads := statusReadsFor 0x27 []}).2.1).2 ∧
    (GetCursorY (readStatus dev0 {env0 with reads := statusReadsFor 0x27 []}).2.1).2 ≤ 2 :=
  cursor_range dev0 env0 0x27 [] (by decide) rfl

/-- C6 counterexample: a status read observing address-counter 0x10 (in
[0,127]) derives cursor X = 17, outside the claimed range 1..16. -/
theorem cursorX_counterexample :
    (GetCursorX (readStatus dev0 {env0 with reads := [0x10, 0]}).2.1).2 = 17 ∧
    ¬ ((17 : Int) ≤ 16) :=
  ⟨by decide, by decide⟩

/-- C7: LCDClose is a no-op returning success whenever the exclusive
flag is set (device record, including the connection, unchanged; no bus
events); it returns EOK for every non-null device; and immediately after
SetExclusive(false) a close leaves the descriptor closed and returns
EOK. -/
theorem lcdClose_exclusive_noop (d : LCDDev) :
    (d.exclusive = true → LCDClose d = (EOK, d, [])) ∧
    (LCDClose d).1 = EOK ∧
    (LCDClose (SetExclusive d false).2).1 = EOK ∧
    (LCDClose (SetExclusive d false).2).2.1.fd = false := by
  refine ⟨?_, ?_, ?_, ?_⟩ <;>
    rcases d with ⟨dev, fd, busy, excl, addr, ac, cx, cy, reg⟩ <;>
    cases fd <;> cases excl <;> simp [LCDClose, SetExclusive]

/-- Witness for C7 at a concrete exclusive-mode device. -/
theorem lcdClose_exclusive_noop_witness :
    LCDClose devExcl = (EOK, devExcl, []) ∧
    (LCDClose (SetExclusive devExcl false).2).2.1.fd = false :=
  ⟨(lcdClose_exclusive_noop devExcl).1 rfl, (lcdClose_exclusive_noop devExcl).2.2.2⟩

/-- C8: with a connection held, writeReg is a plain single one-byte
transfer of the register image (no open, no close); with no connection
held and an openable device it opens, performs the single transfer, and
closes; and in every case the device record — in particular its stored
connection state — is returned unchanged. -/
theorem writeReg_frame (d : LCDDev) (e : Env) :
    (d.fd = true → writeReg d e = (EOK, d, [Ev.busWrite (regval d.reg)])) ∧
    (∀ s, d.fd = false → d.device = some s → e.openOk = true → e.ioctlOk = true →
      writeReg d e = (EOK, d, [Ev.openEv, Ev.busWrite (regval d.reg), Ev.closeEv])) ∧
    (writeReg d e).2.1 = d := by
  refine ⟨?_, ?_, ?_⟩
  · intro h
    simp [writeReg, h]
  · intro s h hdev ho hi
    simp [writeReg, h, hdev, ho, hi]
  · cases hf : d.fd <;> cases hdev : d.device <;> cases ho : e.openOk <;>
      cases hi : e.ioctlOk <;> simp [writeReg, hf, hdev, ho, hi]

/-- Witness for C8 on an open device and on a closed openable device. -/
theorem writeReg_frame_witness :
    writeReg dev0 env0 = (EOK, dev0, [Ev.busWrite (regval dev0.reg)]) ∧
    writeReg devClosed env0 =
      (EOK, devClosed, [Ev.openEv, Ev.busWrite (regval devClosed.reg), Ev.closeEv]) :=
  ⟨(writeReg_frame dev0 env0).1 rfl,
    (writeReg_frame devClosed env0).2.1 "/dev/i2c-1" rfl rfl rfl rfl⟩

/-- C9: SetBacklight followed by GetBacklight returns the value just set,
for both values; SetAddress of any 8-bit value followed by GetAddress
returns that value. -/
theorem backlight_address_roundtrip (d : LCDDev) (e : Env) (b : Bool) (a : Nat)
    (ha : a < 256) :
    GetBacklight (SetBacklight d e b).2.1 = (EOK, b) ∧
    GetAddress (SetAddress d a).2 = (EOK, a) := by
  constructor
  · cases b <;> simp [GetBacklight, SetBacklight, setLED]
  · simp [GetAddress, SetAddress, Nat.mod_eq_of_lt ha]

/-- Witness for C9 with backlight true and address 0x50. -/
theorem backlight_address_roundtrip_witness :
    GetBacklight (SetBacklight dev0 env0 true).2.1 = (EOK, true) ∧
    GetAddress (SetAddress dev0 0x50).2 = (EOK, 0x50) :=
  backlight_address_roundtrip dev0 env0 true 0x50 (by decide)

/-- C10: SetBacklight and SetExclusive do update the backlight bit and
the exclusive flag, yet both return EINVAL — their success paths never
set a success result, so the return value cannot distinguish success
from an invalid-argument failure. -/
theorem setters_return_einval (d : LCDDev) (e : Env) (b x : Bool) :
    (SetBacklight d e b).1 = EINVAL ∧
    (SetBacklight d e b).2.1.reg.LED = (if b then 1 else 0) ∧
    (SetExclusive d x).1 = EINVAL ∧
    (SetExclusive d x).2.exclusive = x := by
  refine ⟨rfl, ?_, rfl, rfl⟩
  cases b <;> simp [SetBacklight, setLED]

end LCD1602
